import Mathlib

/-
Verification development for the wgpu-mbt native-stub loader/adapter layer.

We give a shallow embedding of the C helpers in `src/c/wgpu_dynload.c`,
`src/c/wgpu_optional_sym.c` and `src/c/wgpu_stub_helpers_sync.c`:
C strings become `List Char`, the environment becomes a partial map from
variable names to values, the marker-file filesystem becomes a partial map
from paths to file contents, `snprintf`/`fgets` buffer bounds are modelled
explicitly, and the process-wide mutable caches (library handle, feature
gates, device-lost registry, once-initialized optional-symbol state) become
explicit state values threaded through the functions.
-/

/-- Target operating system, selecting the preprocessor branch of the C code. -/

inductive OSKind where
  | linux
  | macos
  | windows
deriving DecidableEq

/-- A C string (NUL-free byte/char sequence). -/

abbrev CStr := List Char

/-- The process environment: `getenv`. `none` models an unset variable. -/

abbrev Env := String → Option CStr

/-- An option holds an unset-or-empty C string (the `!v || !v[0]` idiom). -/

def isUnsetOrEmpty (v : Option CStr) : Bool :=
  match v with
  | none => true
  | some s => s.isEmpty

/-- `mbt_wgpu_native_lib_filename`: the platform-specific library filename. -/

def mbt_wgpu_native_lib_filename (os : OSKind) : CStr :=
  match os with
  | .windows => ("wgpu_native.dll").data
  | .macos => ("libwgpu_native.dylib").data
  | .linux => ("libwgpu_native.so").data

/-- The fixed per-user install subpath joined between home and filename. -/

def libSubdir (os : OSKind) : CStr :=
  match os with
  | .windows => ("\\.local\\lib\\").data
  | _ => ("/.local/lib/").data

/-- The home-directory variable consulted by path resolution. -/

def homeVarName (os : OSKind) : String :=
  match os with
  | .windows => "USERPROFILE"
  | _ => "HOME"

/-- `snprintf(buf, buflen, ...)` truncation: at most `buflen - 1` characters
are stored (the last byte is the NUL terminator). -/

def snprintfTrunc (buflen : Nat) (s : CStr) : CStr :=
  s.take (buflen - 1)

/-- `mbt_wgpu_native_resolve_lib_path` from `wgpu_dynload.c` (both the POSIX
and the Windows variant, selected by `os`): override variable verbatim if set
and non-empty, else `none` when the home variable is unset/empty, else the
home directory joined with the per-user subpath and filename, written through
a caller-supplied buffer of `buflen` bytes via `snprintf`. -/

def mbt_wgpu_native_resolve_lib_path (os : OSKind) (env : Env) (buflen : Nat) :
    Option CStr :=
  match env ("MBT_WGPU_NATIVE_LIB") with
  | some ov =>
    if ov.isEmpty then
      match env (homeVarName os) with
      | none => none
      | some home =>
        if home.isEmpty then none
        else some (snprintfTrunc buflen
          (home ++ libSubdir os ++ mbt_wgpu_native_lib_filename os))
    else some ov
  | none =>
    match env (homeVarName os) with
    | none => none
    | some home =>
      if home.isEmpty then none
      else some (snprintfTrunc buflen
        (home ++ libSubdir os ++ mbt_wgpu_native_lib_filename os))

/-- An environment with a 1020-character HOME and no override, exhibiting
`snprintf` truncation in the callers' 1024-byte path buffer. -/

def envLongHome : Env := fun n =>
  if n = "HOME" then some (List.replicate 1020 'a') else none

/-- The marker-file filesystem: maps an absolute path to the file contents
(`none` models a missing file). -/

abbrev FS := CStr → Option CStr

/-- `mbt_wgpu_env_truthy` from `wgpu_stub_helpers_sync.c`: unset/empty is
falsy; otherwise only the listed spellings are truthy. -/

def mbt_wgpu_env_truthy (env : Env) (name : String) : Bool :=
  match env name with
  | none => false
  | some v =>
    if v.isEmpty then false
    else decide (v = ("1").data ∨ v = ("true").data ∨ v = ("TRUE").data ∨
      v = ("yes").data ∨ v = ("YES").data ∨ v = ("on").data ∨ v = ("ON").data)

/-- `fgets(line, cap, f)` on the first line: takes characters up to and
including the first newline, at most `cap - 1` of them; returns `none`
(NULL) on an empty file. -/

def takeUpToNewline : Nat → CStr → CStr
  | 0, _ => []
  | _, [] => []
  | n + 1, c :: t => if c = '\n' then [c] else c :: takeUpToNewline n t

def fgetsLine (cap : Nat) (content : CStr) : Option CStr :=
  if content.isEmpty then none else some (takeUpToNewline (cap - 1) content)

/-- Trim trailing newline / CRLF characters, as in the marker parser. -/

def trimCRLF (s : CStr) : CStr :=
  (s.reverse.dropWhile (fun c => c == '\n' || c == '\r')).reverse

/-- Parse `lib_path=<path>` from a trimmed marker line; the recorded path
must be non-empty. -/

def markerRecordedFromLine (line : CStr) : Option CStr :=
  let key := ("lib_path=").data
  if key.isPrefixOf line then
    let rest := line.drop key.length
    if rest.isEmpty then none else some rest
  else none

/-- The marker-file path computed by `mbt_wgpu_marker_allows_current_lib`:
Windows uses `%USERPROFILE%\.local\share\wgpu_mbt\`, POSIX prefers a
non-empty `XDG_DATA_HOME` and falls back to `$HOME/.local/share/wgpu_mbt/`.
The `snprintf` return-value check rejects paths that would not fit in the
4096-byte buffer. -/

def markerPathOf (os : OSKind) (env : Env) (marker_filename : CStr) :
    Option CStr :=
  match os with
  | .windows =>
    match env ("USERPROFILE") with
    | none => none
    | some home =>
      if home.isEmpty then none
      else
        let pth := home ++ ("\\.local\\share\\wgpu_mbt\\").data ++ marker_filename
        if 4096 ≤ pth.length then none else some pth
  | _ =>
    let dh := env ("XDG_DATA_HOME")
    let hm := env ("HOME")
    if isUnsetOrEmpty dh && isUnsetOrEmpty hm then none
    else
      match dh with
      | some d =>
        if d.isEmpty then
          match hm with
          | none => none
          | some h =>
            let pth := h ++ ("/.local/share/wgpu_mbt/").data ++ marker_filename
            if 4096 ≤ pth.length then none else some pth
        else
          let pth := d ++ ("/wgpu_mbt/").data ++ marker_filename
          if 4096 ≤ pth.length then none else some pth
      | none =>
        match hm with
        | none => none
        | some h =>
          let pth := h ++ ("/.local/share/wgpu_mbt/").data ++ marker_filename
          if 4096 ≤ pth.length then none else some pth

/-- The recorded `lib_path` of the located marker file, after the same
locate / fgets / trim / parse steps as `mbt_wgpu_marker_allows_current_lib`. -/

def markerRecordedLibPath (os : OSKind) (env : Env) (fs : FS)
    (marker_filename : CStr) : Option CStr :=
  if marker_filename.isEmpty then none
  else
    match markerPathOf os env marker_filename with
    | none => none
    | some mpath =>
      match fs mpath with
      | none => none
      | some content =>
        match fgetsLine 4096 content with
        | none => none
        | some line => markerRecordedFromLine (trimCRLF line)

/-- `mbt_wgpu_marker_allows_current_lib`: the marker is trusted only when its
recorded path string-equals the library path the process would currently
resolve (into a 4096-byte buffer). -/

def mbt_wgpu_marker_allows_current_lib (os : OSKind) (env : Env) (fs : FS)
    (marker_filename : CStr) : Bool :=
  match markerRecordedLibPath os env fs marker_filename with
  | none => false
  | some mlib =>
    match mbt_wgpu_native_resolve_lib_path os env 4096 with
    | none => false
    | some cur => if cur.isEmpty then false else decide (mlib = cur)

def MBT_WGPU_MARKER_PIPELINE_ASYNC : CStr := ("pipeline_async.ok").data

def MBT_WGPU_MARKER_COMPILATION_INFO : CStr := ("compilation_info.ok").data

/-- The memoized feature-gate state (`g_..._enabled` / `g_..._inited`). -/

structure GateState where
  inited : Bool
  enabled : Bool
deriving DecidableEq

/-- Both gate flags are file-scope statics initialized to `false`. -/

def initialGateState : GateState := ⟨false, false⟩

/-- `mbt_wgpu_pipeline_async_enabled`: explicit disable always wins, then the
memoized value; on first evaluation the gate is the enable variable or the
marker check. -/

def mbt_wgpu_pipeline_async_enabled (os : OSKind) (env : Env) (fs : FS)
    (st : GateState) : Bool × GateState :=
  if mbt_wgpu_env_truthy env ("MBT_WGPU_DISABLE_PIPELINE_ASYNC") then (false, st)
  else if st.inited then (st.enabled, st)
  else
    let e := mbt_wgpu_env_truthy env ("MBT_WGPU_ENABLE_PIPELINE_ASYNC") ||
      mbt_wgpu_marker_allows_current_lib os env fs MBT_WGPU_MARKER_PIPELINE_ASYNC
    (e, ⟨true, e⟩)

/-- `mbt_wgpu_compilation_info_enabled`: same shape as the pipeline-async
gate with its own variables and marker. -/

def mbt_wgpu_compilation_info_enabled (os : OSKind) (env : Env) (fs : FS)
    (st : GateState) : Bool × GateState :=
  if mbt_wgpu_env_truthy env ("MBT_WGPU_DISABLE_COMPILATION_INFO") then (false, st)
  else if st.inited then (st.enabled, st)
  else
    let e := mbt_wgpu_env_truthy env ("MBT_WGPU_ENABLE_COMPILATION_INFO") ||
      mbt_wgpu_marker_allows_current_lib os env fs MBT_WGPU_MARKER_COMPILATION_INFO
    (e, ⟨true, e⟩)

/-- A concrete environment setting only the pipeline-async disable flag. -/

def envDisableOnly : Env := fun n =>
  if n = "MBT_WGPU_DISABLE_PIPELINE_ASYNC" then some (("1").data) else none

/-- An empty marker filesystem. -/

def fsEmpty : FS := fun _ => none

/-- A device-lost registry entry: (device handle, reason). Handles and
reasons are machine words, modelled as naturals; handle 0 is NULL and
reason 0 means "no event". -/

abbrev LostEntry := Nat × Nat

/-- Modelled from the spec: the vendored `webgpu.h` header (not under
`src/`) defines the device-lost reason enumerators; the spec requires every
real enumerator to be distinct from the 0 "pending/no event" sentinel, and
the WebGPU header assigns `WGPUDeviceLostReason_Destroyed = 2`. -/

def WGPUDeviceLostReason_Destroyed : Nat := 2

/-- Index of the first registry entry for a device handle (the C code's
ascending linear scan). -/

def firstKeyIdx : List LostEntry → Nat → Option Nat
  | [], _ => none
  | e :: t, d => if e.1 = d then some 0 else (firstKeyIdx t d).map (· + 1)

/-- The scan-and-update part of `mbt_device_lost_upsert`: `none` when no
entry matches, otherwise the registry with the first matching entry's
reason overwritten in place. -/

def upsertGo : List LostEntry → Nat → Nat → Option (List LostEntry)
  | [], _, _ => none
  | e :: t, d, r =>
    if e.1 = d then some ((e.1, r) :: t)
    else (upsertGo t d r).map (e :: ·)

/-- `mbt_device_lost_upsert`: update the first matching entry in place, else
append when the fixed 16-entry capacity allows, else silently drop. -/

def mbt_device_lost_upsert (reg : List LostEntry) (d r : Nat) : List LostEntry :=
  match upsertGo reg d r with
  | some reg2 => reg2
  | none => if reg.length < 16 then reg ++ [(d, r)] else reg

/-- `mbt_wgpu_device_take_lost_reason_u32`: return the first matching
entry's reason and remove the entry by swapping the last entry into its
slot and shrinking; 0 when no entry matches. -/

def mbt_wgpu_device_take_lost_reason_u32 (reg : List LostEntry) (d : Nat) :
    Nat × List LostEntry :=
  match firstKeyIdx reg d with
  | none => (0, reg)
  | some i =>
    let entry := (reg[i]?).getD (0, 0)
    let lastE := reg.getLastD (0, 0)
    (entry.2, (reg.set i lastE).dropLast)

/-- `mbt_wgpu_device_destroy_record_lost`: after the native destroy call,
synthesize a "destroyed" loss reason in the registry. -/

def mbt_wgpu_device_destroy_record_lost (reg : List LostEntry) (d : Nat) :
    List LostEntry :=
  mbt_device_lost_upsert reg d WGPUDeviceLostReason_Destroyed

/-- The scan index depends only on the key column. -/

def keyIdx : List Nat → Nat → Option Nat
  | [], _ => none
  | k :: t, d => if k = d then some 0 else (keyIdx t d).map (· + 1)

/-- A full registry tracking devices 1..16. -/

def regFull16 : List LostEntry := (List.range 16).map (fun k => (k + 1, 5))

/-- Modelled from the spec: the vendored `webgpu.h` assigns the async
pipeline-creation success status the value 1; the spec requires every real
status enumerator to be distinct from the 0 "pending" sentinel. -/

def WGPUCreatePipelineAsyncStatus_Success : Nat := 1

def MBT_WGPU_PIPELINE_ASYNC_ERR_NONE : Nat := 0

def MBT_WGPU_PIPELINE_ASYNC_ERR_DISABLED : Nat := 1

def MBT_WGPU_PIPELINE_ASYNC_ERR_MISSING_SYMBOL : Nat := 2

def MBT_WGPU_PIPELINE_ASYNC_ERR_TIMEOUT : Nat := 3

def MBT_WGPU_PIPELINE_ASYNC_ERR_FAILED : Nat := 4

def MBT_WGPU_PIPELINE_ASYNC_ERR_INVALID_INPUT : Nat := 5

def MBT_WGPU_COMPILATION_INFO_ERR_NONE : Nat := 0

def MBT_WGPU_COMPILATION_INFO_ERR_DISABLED : Nat := 1

def MBT_WGPU_COMPILATION_INFO_ERR_MISSING_SYMBOL : Nat := 2

def MBT_WGPU_COMPILATION_INFO_ERR_TIMEOUT : Nat := 3

def MBT_WGPU_COMPILATION_INFO_ERR_ALLOC_FAILED : Nat := 4

def MBT_WGPU_COMPILATION_INFO_ERR_INVALID_INPUT : Nat := 5

/-- The bounded poll loop `for (i = 0; i < max_iters && out.status == 0; i++)`.
`statusAt i` is the value the result slot holds at the i-th loop-condition
check (the pump between checks is what may change it). Returns the number of
executed loop bodies; the status the code reads after the loop is
`statusAt` at that index. -/

def pollStatusGo (statusAt : Nat → Nat) : Nat → Nat → Nat
  | 0, _ => 0
  | fuel + 1, i => if statusAt i ≠ 0 then 0 else pollStatusGo statusAt fuel (i + 1) + 1

def pollIters (statusAt : Nat → Nat) : Nat :=
  pollStatusGo statusAt 2000 0

/-- The device-lost bounded wait loop from
`mbt_wgpu_device_wait_lost_reason_sync_u32`: each iteration takes the
recorded reason, returning it when non-zero, else pumps the event loop
(`pump i` is the registry transition the i-th pump performs) and sleeps.
Returns (reason, final registry, pump iterations executed). -/

def waitLostGo (pump : Nat → List LostEntry → List LostEntry) (d : Nat) :
    Nat → Nat → List LostEntry → Nat × List LostEntry × Nat
  | 0, _, reg => (0, reg, 0)
  | fuel + 1, i, reg =>
    let t := mbt_wgpu_device_take_lost_reason_u32 reg d
    if t.1 ≠ 0 then (t.1, t.2, 0)
    else
      let rest := waitLostGo pump d fuel (i + 1) (pump i t.2)
      (rest.1, rest.2.1, rest.2.2 + 1)

/-- `mbt_wgpu_device_wait_lost_reason_sync_u32`: bounded wait, 2000 × 1 ms. -/

def mbt_wgpu_device_wait_lost_reason_sync_u32
    (pump : Nat → List LostEntry → List LostEntry) (d : Nat)
    (reg : List LostEntry) : Nat × List LostEntry × Nat :=
  waitLostGo pump d 2000 0 reg

/-- Outcome of a strict async-pipeline wrapper: the returned pipeline, the
thread-local last status and error kind it records, the number of poll
iterations it ran, and the gate state it leaves behind. -/

structure StrictAsyncOutcome where
  pipeline : Option Nat
  lastStatus : Nat
  errKind : Nat
  iters : Nat
  gateAfter : GateState
deriving DecidableEq

/-- `mbt_wgpu_device_create_compute_pipeline_async_sync_ptr_strict`:
null-input check, feature gate, once-cached optional symbol (`pfn`), bounded
poll, then success/failure classification. `statusAt`/`pipelineAt` give the
result-slot contents at each loop check. -/

def mbt_wgpu_device_create_compute_pipeline_async_sync_ptr_strict
    (os : OSKind) (env : Env) (fs : FS) (gate : GateState) (pfn : Option Nat)
    (statusAt : Nat → Nat) (pipelineAt : Nat → Option Nat)
    (inst dev desc : Option Nat) : StrictAsyncOutcome :=
  if inst = none ∨ dev = none ∨ desc = none then
    ⟨none, 0, MBT_WGPU_PIPELINE_ASYNC_ERR_INVALID_INPUT, 0, gate⟩
  else
    let g := mbt_wgpu_pipeline_async_enabled os env fs gate
    if g.1 = false then
      ⟨none, 0, MBT_WGPU_PIPELINE_ASYNC_ERR_DISABLED, 0, g.2⟩
    else
      match pfn with
      | none => ⟨none, 0, MBT_WGPU_PIPELINE_ASYNC_ERR_MISSING_SYMBOL, 0, g.2⟩
      | some _ =>
        let iters := pollIters statusAt
        let st := statusAt iters
        if st = 0 then
          ⟨none, 0, MBT_WGPU_PIPELINE_ASYNC_ERR_TIMEOUT, iters, g.2⟩
        else if st ≠ WGPUCreatePipelineAsyncStatus_Success ∨ pipelineAt iters = none then
          ⟨none, st, MBT_WGPU_PIPELINE_ASYNC_ERR_FAILED, iters, g.2⟩
        else
          ⟨pipelineAt iters, st, MBT_WGPU_PIPELINE_ASYNC_ERR_NONE, iters, g.2⟩

/-- `mbt_wgpu_device_create_render_pipeline_async_sync_ptr_strict`: the
render variant is shaped identically to the compute variant. -/

def mbt_wgpu_device_create_render_pipeline_async_sync_ptr_strict
    (os : OSKind) (env : Env) (fs : FS) (gate : GateState) (pfn : Option Nat)
    (statusAt : Nat → Nat) (pipelineAt : Nat → Option Nat)
    (inst dev desc : Option Nat) : StrictAsyncOutcome :=
  if inst = none ∨ dev = none ∨ desc = none then
    ⟨none, 0, MBT_WGPU_PIPELINE_ASYNC_ERR_INVALID_INPUT, 0, gate⟩
  else
    let g := mbt_wgpu_pipeline_async_enabled os env fs gate
    if g.1 = false then
      ⟨none, 0, MBT_WGPU_PIPELINE_ASYNC_ERR_DISABLED, 0, g.2⟩
    else
      match pfn with
      | none => ⟨none, 0, MBT_WGPU_PIPELINE_ASYNC_ERR_MISSING_SYMBOL, 0, g.2⟩
      | some _ =>
        let iters := pollIters statusAt
        let st := statusAt iters
        if st = 0 then
          ⟨none, 0, MBT_WGPU_PIPELINE_ASYNC_ERR_TIMEOUT, iters, g.2⟩
        else if st ≠ WGPUCreatePipelineAsyncStatus_Success ∨ pipelineAt iters = none then
          ⟨none, st, MBT_WGPU_PIPELINE_ASYNC_ERR_FAILED, iters, g.2⟩
        else
          ⟨pipelineAt iters, st, MBT_WGPU_PIPELINE_ASYNC_ERR_NONE, iters, g.2⟩

/-- One collected compilation message: its copied text bytes. -/

abbrev CompMessageText := List Nat

/-- The record `mbt_wgpu_shader_module_get_compilation_info_sync_new`
returns on success. -/

structure CompInfo where
  status_u32 : Nat
  messages : List CompMessageText
deriving DecidableEq

structure CompInfoOutcome where
  info : Option CompInfo
  lastStatus : Nat
  errKind : Nat
  iters : Nat
  gateAfter : GateState
deriving DecidableEq

/-- `mbt_wgpu_shader_module_get_compilation_info_sync_new`: null-input
check, compilation-info gate, once-cached optional symbol, result-record
allocation (`allocOk`), bounded poll, timeout cleanup. -/

def mbt_wgpu_shader_module_get_compilation_info_sync_new
    (os : OSKind) (env : Env) (fs : FS) (gate : GateState) (pfn : Option Nat)
    (allocOk : Bool) (statusAt : Nat → Nat)
    (messagesAt : Nat → List CompMessageText)
    (inst shader : Option Nat) : CompInfoOutcome :=
  if inst = none ∨ shader = none then
    ⟨none, 0, MBT_WGPU_COMPILATION_INFO_ERR_INVALID_INPUT, 0, gate⟩
  else
    let g := mbt_wgpu_compilation_info_enabled os env fs gate
    if g.1 = false then
      ⟨none, 0, MBT_WGPU_COMPILATION_INFO_ERR_DISABLED, 0, g.2⟩
    else
      match pfn with
      | none => ⟨none, 0, MBT_WGPU_COMPILATION_INFO_ERR_MISSING_SYMBOL, 0, g.2⟩
      | some _ =>
        if allocOk = false then
          ⟨none, 0, MBT_WGPU_COMPILATION_INFO_ERR_ALLOC_FAILED, 0, gate⟩
        else
          let iters := pollIters statusAt
          let st := statusAt iters
          if st = 0 then
            ⟨none, 0, MBT_WGPU_COMPILATION_INFO_ERR_TIMEOUT, iters, g.2⟩
          else
            ⟨some ⟨st, messagesAt iters⟩, st,
              MBT_WGPU_COMPILATION_INFO_ERR_NONE, iters, g.2⟩

/-- `mbt_wgpu_device_create_compute_pipeline_async_sync_ptr` (lenient): if
the instance is null or the gate is off, or the async symbol is absent, or
the bounded wait does not end with a success status and a non-null pipeline,
fall back to the blocking `wgpuDeviceCreateComputePipeline` (`syncCreate`)
on the same device and descriptor. -/

def mbt_wgpu_device_create_compute_pipeline_async_sync_ptr
    (os : OSKind) (env : Env) (fs : FS) (gate : GateState) (pfn : Option Nat)
    (statusAt : Nat → Nat) (pipelineAt : Nat → Option Nat)
    (inst dev desc : Option Nat)
    (syncCreate : Option Nat → Option Nat → Option Nat) :
    Option Nat × GateState :=
  if inst = none then (syncCreate dev desc, gate)
  else
    let g := mbt_wgpu_pipeline_async_enabled os env fs gate
    if g.1 = false then (syncCreate dev desc, g.2)
    else
      match pfn with
      | none => (syncCreate dev desc, g.2)
      | some _ =>
        let iters := pollIters statusAt
        let st := statusAt iters
        if st = WGPUCreatePipelineAsyncStatus_Success ∧ pipelineAt iters ≠ none then
          (pipelineAt iters, g.2)
        else (syncCreate dev desc, g.2)

/-- `mbt_wgpu_device_create_render_pipeline_async_sync_ptr` (lenient): the
render variant, falling back to `wgpuDeviceCreateRenderPipeline`. -/

def mbt_wgpu_device_create_render_pipeline_async_sync_ptr
    (os : OSKind) (env : Env) (fs : FS) (gate : GateState) (pfn : Option Nat)
    (statusAt : Nat → Nat) (pipelineAt : Nat → Option Nat)
    (inst dev desc : Option Nat)
    (syncCreate : Option Nat → Option Nat → Option Nat) :
    Option Nat × GateState :=
  if inst = none then (syncCreate dev desc, gate)
  else
    let g := mbt_wgpu_pipeline_async_enabled os env fs gate
    if g.1 = false then (syncCreate dev desc, g.2)
    else
      match pfn with
      | none => (syncCreate dev desc, g.2)
      | some _ =>
        let iters := pollIters statusAt
        let st := statusAt iters
        if st = WGPUCreatePipelineAsyncStatus_Success ∧ pipelineAt iters ≠ none then
          (pipelineAt iters, g.2)
        else (syncCreate dev desc, g.2)

/-- An environment that force-enables async pipeline creation. -/

def envEnablePipelineAsync : Env := fun n =>
  if n = "MBT_WGPU_ENABLE_PIPELINE_ASYNC" then some (("1").data) else none

/-- Result of one `mbt_wgpu_native_open_impl` call: the returned handle, or
"no handle" (optional policy), or a process abort (required policy). -/

inductive OpenResult where
  | ok (h : Nat)
  | noHandle
  | aborted
deriving DecidableEq

/-- The context one open call runs in: the access policy, the environment it
reads, and the outcome the OS loader would give for each path. -/

structure OpenCallCtx where
  required : Bool
  env : Env
  load : CStr → Option Nat

/-- What one open call did: its result, the cache it leaves behind, whether
it performed path resolution, and how many OS-load invocations it made. -/

structure OpenStepOut where
  result : OpenResult
  cache : Option Nat
  didResolve : Bool
  loadCalls : Nat

/-- `mbt_wgpu_native_open_impl`: under the mutex, return the cached handle
if set; else resolve the path into the 1024-byte buffer (failing per policy
when unresolvable or empty); else invoke the OS loader (failing per policy),
caching the handle on success. -/

def mbt_wgpu_native_open_impl (os : OSKind) (c : OpenCallCtx)
    (cache : Option Nat) : OpenStepOut :=
  match cache with
  | some h => ⟨.ok h, some h, false, 0⟩
  | none =>
    match mbt_wgpu_native_resolve_lib_path os c.env 1024 with
    | none =>
      ⟨if c.required then .aborted else .noHandle, none, true, 0⟩
    | some path =>
      if path.isEmpty then
        ⟨if c.required then .aborted else .noHandle, none, true, 0⟩
      else
        match c.load path with
        | none => ⟨if c.required then .aborted else .noHandle, none, true, 1⟩
        | some lib => ⟨.ok lib, some lib, true, 1⟩

/-- A whole sequence of open calls: per-call results, the final cache, the
total number of OS-load invocations, and the total number of path
resolutions performed. -/

def runOpens (os : OSKind) : Option Nat → List OpenCallCtx →
    List OpenResult × Option Nat × Nat × Nat
  | cache, [] => ([], cache, 0, 0)
  | cache, c :: cs =>
    let o := mbt_wgpu_native_open_impl os c cache
    let rest := runOpens os o.cache cs
    (o.result :: rest.1, rest.2.1, o.loadCalls + rest.2.2.1,
      (if o.didResolve then 1 else 0) + rest.2.2.2)

/-- A call sequence is "happy" when every OS-load its calls could make
succeeds. -/

def happyLoads (cs : List OpenCallCtx) : Prop :=
  ∀ c ∈ cs, ∀ path, c.load path ≠ none

/-- `mbt_wgpu_optional_default_lib_path` from `wgpu_optional_sym.c`: the
same home-directory join as the main resolver, without the override. -/

def mbt_wgpu_optional_default_lib_path (os : OSKind) (env : Env)
    (buflen : Nat) : Option CStr :=
  match env (homeVarName os) with
  | none => none
  | some home =>
    if home.isEmpty then none
    else some (snprintfTrunc buflen
      (home ++ libSubdir os ++ mbt_wgpu_native_lib_filename os))

/-- `mbt_wgpu_optional_init`: pick the override if set and non-empty, else
the default path (1024-byte buffer); if no usable path, leave the library
unset; else the one-time `dlopen` outcome. -/

def mbt_wgpu_optional_init (os : OSKind) (env : Env)
    (load : CStr → Option Nat) : Option Nat :=
  let path := match env ("MBT_WGPU_NATIVE_LIB") with
    | some ov =>
      if ov.isEmpty then mbt_wgpu_optional_default_lib_path os env 1024
      else some ov
    | none => mbt_wgpu_optional_default_lib_path os env 1024
  match path with
  | none => none
  | some p => if p.isEmpty then none else load p

/-- The `pthread_once` state of the optional-symbol module: whether the
once-routine already ran, and the library handle it left behind. -/

structure OnceState where
  done : Bool
  lib : Option Nat
deriving DecidableEq

def initialOnceState : OnceState := ⟨false, none⟩

/-- `mbt_wgpu_optional_sym`: empty names fail fast; otherwise run the
once-initializer if it has not run yet (and never again), then look the
symbol up in the cached library (`sym`), returning `none` when the cached
library is absent. The third component reports whether the initializer
(resolution + load) ran during this call. -/

def mbt_wgpu_optional_sym (os : OSKind) (env : Env)
    (load : CStr → Option Nat) (sym : Nat → CStr → Option Nat)
    (name : CStr) (st : OnceState) : Option Nat × OnceState × Bool :=
  if name.isEmpty then (none, st, false)
  else
    let st2 := if st.done then st else ⟨true, mbt_wgpu_optional_init os env load⟩
    let ran := !st.done
    match st2.lib with
    | none => (none, st2, ran)
    | some l => (sym l name, st2, ran)

/-- The empty environment. -/

def envEmpty : Env := fun _ => none

/-- An environment with a usable HOME. -/

def envGoodHome : Env := fun n =>
  if n = "HOME" then some (("/home/u").data) else none

/-- The once-state after a first optional-symbol call in an environment
where resolution fails. -/

def onceStateAfterFailedInit : OnceState :=
  (mbt_wgpu_optional_sym .linux envEmpty (fun _ => none) (fun _ _ => none)
    (("wgpuCreateInstance").data) initialOnceState).2.1

/-- `mbt_wgpu_instance_request_adapter_sync_last_message_utf8_len`. -/

def mbt_wgpu_instance_request_adapter_sync_last_message_utf8_len
    (msg : List Nat) : Nat := msg.length

/-- `mbt_wgpu_instance_request_adapter_sync_last_message_utf8`: reject an
empty buffer or a buffer smaller than the stored message; succeed without
writing for an empty stored message; else copy exactly the stored bytes.
The second component is the bytes written into the caller's buffer. -/

def mbt_wgpu_instance_request_adapter_sync_last_message_utf8
    (msg : List Nat) (out_len : Nat) : Bool × List Nat :=
  if out_len = 0 then (false, [])
  else if out_len < msg.length then (false, [])
  else if msg.length = 0 then (true, [])
  else (true, msg)

/-- `mbt_wgpu_adapter_request_device_sync_last_message_utf8_len`. -/

def mbt_wgpu_adapter_request_device_sync_last_message_utf8_len
    (msg : List Nat) : Nat := msg.length

/-- `mbt_wgpu_adapter_request_device_sync_last_message_utf8`: identical
shape to the request-adapter variant. -/

def mbt_wgpu_adapter_request_device_sync_last_message_utf8
    (msg : List Nat) (out_len : Nat) : Bool × List Nat :=
  if out_len = 0 then (false, [])
  else if out_len < msg.length then (false, [])
  else if msg.length = 0 then (true, [])
  else (true, msg)

/-- `mbt_wgpu_appendf`: append formatted text into a `buflen`-byte buffer
already holding `acc`; no write when the buffer is full, else at most the
remaining space minus the NUL terminator. -/

def mbt_wgpu_appendf (buflen : Nat) (acc s : CStr) : CStr :=
  if buflen = 0 ∨ buflen ≤ acc.length then acc
  else acc ++ s.take (buflen - 1 - acc.length)

/-- `mbt_wgpu_native_diagnostic_impl` (the POSIX branch): the key=value
report lines, written through `mbt_wgpu_appendf` into a 4096-byte buffer.
`loadOk`/`symOk` are the outcomes of the probe `dlopen`/`dlsym`, and the
optional texts model `dlerror()`. -/

def mbt_wgpu_native_diagnostic_impl (os : OSKind) (env : Env) (loadOk : Bool)
    (dlerrText symErrText : Option CStr) (symOk : Bool) : CStr :=
  let ovLine := ("MBT_WGPU_NATIVE_LIB=").data ++
    (match env ("MBT_WGPU_NATIVE_LIB") with
     | some ov => if ov.isEmpty then ("<unset>").data else ov
     | none => ("<unset>").data) ++ [Char.ofNat 10]
  let n1 := mbt_wgpu_appendf 4096 [] ovLine
  let path := mbt_wgpu_native_resolve_lib_path os env 1024
  let pathLine := ("resolved_path=").data ++
    (match path with
     | some p => if p.isEmpty then ("<none>").data else p
     | none => ("<none>").data) ++ [Char.ofNat 10]
  let n2 := mbt_wgpu_appendf 4096 n1 pathLine
  match path with
  | none =>
    mbt_wgpu_appendf 4096 n2 (("status=unavailable (cannot resolve path)\n").data)
  | some p =>
    if p.isEmpty then
      mbt_wgpu_appendf 4096 n2 (("status=unavailable (cannot resolve path)\n").data)
    else if loadOk = false then
      let n3 := mbt_wgpu_appendf 4096 n2 (("dlopen failed\n").data)
      match dlerrText with
      | some e =>
        if e.isEmpty then n3
        else mbt_wgpu_appendf 4096 n3 ((("dlerror=").data) ++ e ++ [Char.ofNat 10])
      | none => n3
    else if symOk then
      let n3 := mbt_wgpu_appendf 4096 n2 (("dlsym(wgpuCreateInstance)=ok\n").data)
      mbt_wgpu_appendf 4096 n3 (("status=available\n").data)
    else
      let n3 := mbt_wgpu_appendf 4096 n2 (("dlsym(wgpuCreateInstance)=failed\n").data)
      let n4 := match symErrText with
        | some e =>
          if e.isEmpty then n3
          else mbt_wgpu_appendf 4096 n3 ((("dlerror=").data) ++ e ++ [Char.ofNat 10])
        | none => n3
      mbt_wgpu_appendf 4096 n4 (("status=unavailable (missing symbol)\n").data)

/-- `mbt_wgpu_native_diagnostic_utf8_len`. -/

def mbt_wgpu_native_diagnostic_utf8_len (os : OSKind) (env : Env)
    (loadOk : Bool) (dlerrText symErrText : Option CStr) (symOk : Bool) : Nat :=
  (mbt_wgpu_native_diagnostic_impl os env loadOk dlerrText symErrText symOk).length

/-- `mbt_wgpu_native_diagnostic_utf8`: reject an empty or too-small buffer,
else copy the whole report. -/

def mbt_wgpu_native_diagnostic_utf8 (os : OSKind) (env : Env) (loadOk : Bool)
    (dlerrText symErrText : Option CStr) (symOk : Bool) (out_len : Nat) :
    Bool × CStr :=
  if out_len = 0 then (false, [])
  else
    let report := mbt_wgpu_native_diagnostic_impl os env loadOk dlerrText
      symErrText symOk
    if out_len < report.length then (false, [])
    else (true, report)

/-- `mbt_wgpu_compilation_info_message_utf8_len`: 0 for a null record or an
out-of-range index, else the stored text length. -/

def mbt_wgpu_compilation_info_message_utf8_len (info : Option CompInfo)
    (index : Nat) : Nat :=
  match info with
  | none => 0
  | some p =>
    match p.messages[index]? with
    | none => 0
    | some t => t.length

/-- `mbt_wgpu_compilation_info_message_utf8`: fail on a null record,
out-of-range index, or a buffer smaller than the stored text; else copy the
stored text (which may be empty). -/

def mbt_wgpu_compilation_info_message_utf8 (info : Option CompInfo)
    (index : Nat) (out_len : Nat) : Bool × List Nat :=
  match info with
  | none => (false, [])
  | some p =>
    match p.messages[index]? with
    | none => (false, [])
    | some t =>
      if out_len < t.length then (false, [])
      else (true, t)

/-- C1 counterexample: with the 1024-byte buffer every call site uses
(`char fallback[1024]` / `char path_buf[1024]`), a 1020-character HOME makes
`snprintf` truncate, so the resolved path is not exactly
`home ++ "/.local/lib/" ++ filename`. -/
theorem c1_counterexample :
    mbt_wgpu_native_resolve_lib_path .linux envLongHome 1024 ≠
      some (List.replicate 1020 'a' ++ ("/.local/lib/libwgpu_native.so").data) := by
  intro h
  have hres : mbt_wgpu_native_resolve_lib_path .linux envLongHome 1024 =
      some (snprintfTrunc 1024
        (List.replicate 1020 'a' ++ libSubdir .linux ++
          mbt_wgpu_native_lib_filename .linux)) := by
    rfl
  rw [hres] at h
  have hlit : (("/.local/lib/libwgpu_native.so").data).length = 29 := by decide
  have hlen := congrArg List.length (Option.some.inj h)
  simp only [snprintfTrunc, libSubdir, mbt_wgpu_native_lib_filename,
    List.length_take, List.length_append, List.length_replicate, hlit] at hlen
  have hlit2 : (("/.local/lib/").data).length = 12 := by decide
  have hlit3 : (("libwgpu_native.so").data).length = 17 := by decide
  rw [hlit2, hlit3] at hlen
  omega

/-- C1 (amended): path-resolution precedence, with the truncation proviso.
If the override is set and non-empty it is returned verbatim; otherwise if
the home variable is unset or empty resolution yields no path; otherwise the
result is exactly `home ++ subpath ++ filename` provided that string fits in
the caller's buffer (`length < buflen`), and in general it is that string
truncated to `buflen - 1` characters. -/
theorem c1_path_resolution_amended (os : OSKind) (env : Env) (buflen : Nat) :
    (∀ ov, env ("MBT_WGPU_NATIVE_LIB") = some ov → ov ≠ [] →
      mbt_wgpu_native_resolve_lib_path os env buflen = some ov) ∧
    (isUnsetOrEmpty (env ("MBT_WGPU_NATIVE_LIB")) = true →
      isUnsetOrEmpty (env (homeVarName os)) = true →
      mbt_wgpu_native_resolve_lib_path os env buflen = none) ∧
    (∀ home, isUnsetOrEmpty (env ("MBT_WGPU_NATIVE_LIB")) = true →
      env (homeVarName os) = some home → home ≠ [] →
      (home ++ libSubdir os ++ mbt_wgpu_native_lib_filename os).length < buflen →
      mbt_wgpu_native_resolve_lib_path os env buflen =
        some (home ++ libSubdir os ++ mbt_wgpu_native_lib_filename os)) := by
  refine ⟨?_, ?_, ?_⟩
  · intro ov hov hne
    simp [mbt_wgpu_native_resolve_lib_path, hov, List.isEmpty_iff, hne]
  · intro hov hhome
    unfold mbt_wgpu_native_resolve_lib_path
    cases h1 : env ("MBT_WGPU_NATIVE_LIB") with
    | none =>
      cases h2 : env (homeVarName os) with
      | none => rfl
      | some home =>
        rw [h2] at hhome
        simp only [isUnsetOrEmpty] at hhome
        simp [hhome]
    | some ov =>
      rw [h1] at hov
      simp only [isUnsetOrEmpty] at hov
      cases h2 : env (homeVarName os) with
      | none => simp [hov]
      | some home =>
        rw [h2] at hhome
        simp only [isUnsetOrEmpty] at hhome
        simp [hov, hhome]
  · intro home hov hhome hne hfit
    have hfit' : (home ++ libSubdir os ++ mbt_wgpu_native_lib_filename os).length
        ≤ buflen - 1 := by omega
    have htake : snprintfTrunc buflen
        (home ++ libSubdir os ++ mbt_wgpu_native_lib_filename os) =
        home ++ libSubdir os ++ mbt_wgpu_native_lib_filename os :=
      List.take_of_length_le hfit'
    have htake' : snprintfTrunc buflen
        (home ++ (libSubdir os ++ mbt_wgpu_native_lib_filename os)) =
        home ++ (libSubdir os ++ mbt_wgpu_native_lib_filename os) := by
      simpa [List.append_assoc] using htake
    unfold mbt_wgpu_native_resolve_lib_path
    cases h1 : env ("MBT_WGPU_NATIVE_LIB") with
    | none =>
      rw [hhome]
      simp [List.isEmpty_iff, hne, htake']
    | some ov =>
      rw [h1] at hov
      simp only [isUnsetOrEmpty] at hov
      rw [hhome]
      simp [hov, List.isEmpty_iff, hne, htake']

/-- C1 witness: a concrete environment taking the happy home-directory branch
through the amended theorem. -/
theorem c1_path_resolution_amended_witness :
    mbt_wgpu_native_resolve_lib_path .linux
      (fun n => if n = "HOME" then some (("/home/u").data) else none) 1024 =
      some ((("/home/u").data) ++ libSubdir .linux ++
        mbt_wgpu_native_lib_filename .linux) :=
  (c1_path_resolution_amended .linux
      (fun n => if n = "HOME" then some (("/home/u").data) else none) 1024).2.2
    (("/home/u").data) (by decide) (by decide) (by decide) (by decide)

/-- C2: feature-gate precedence for both risky features, evaluated from the
process-initial (uninitialized) gate state: disable wins over everything;
else enable wins over the marker; else the gate is on exactly when the
marker check passes, and a passing marker check means the recorded path
equals the currently resolved path. -/
theorem c2_feature_gate_precedence (os : OSKind) (env : Env) (fs : FS) :
    (mbt_wgpu_env_truthy env ("MBT_WGPU_DISABLE_PIPELINE_ASYNC") = true →
      (mbt_wgpu_pipeline_async_enabled os env fs initialGateState).1 = false) ∧
    (mbt_wgpu_env_truthy env ("MBT_WGPU_DISABLE_PIPELINE_ASYNC") = false →
      mbt_wgpu_env_truthy env ("MBT_WGPU_ENABLE_PIPELINE_ASYNC") = true →
      (mbt_wgpu_pipeline_async_enabled os env fs initialGateState).1 = true) ∧
    (mbt_wgpu_env_truthy env ("MBT_WGPU_DISABLE_PIPELINE_ASYNC") = false →
      mbt_wgpu_env_truthy env ("MBT_WGPU_ENABLE_PIPELINE_ASYNC") = false →
      ((mbt_wgpu_pipeline_async_enabled os env fs initialGateState).1 = true ↔
        mbt_wgpu_marker_allows_current_lib os env fs
          MBT_WGPU_MARKER_PIPELINE_ASYNC = true)) ∧
    (∀ fn, mbt_wgpu_marker_allows_current_lib os env fs fn = true →
      ∃ q, markerRecordedLibPath os env fs fn = some q ∧
        mbt_wgpu_native_resolve_lib_path os env 4096 = some q) ∧
    (mbt_wgpu_env_truthy env ("MBT_WGPU_DISABLE_COMPILATION_INFO") = true →
      (mbt_wgpu_compilation_info_enabled os env fs initialGateState).1 = false) ∧
    (mbt_wgpu_env_truthy env ("MBT_WGPU_DISABLE_COMPILATION_INFO") = false →
      mbt_wgpu_env_truthy env ("MBT_WGPU_ENABLE_COMPILATION_INFO") = true →
      (mbt_wgpu_compilation_info_enabled os env fs initialGateState).1 = true) ∧
    (mbt_wgpu_env_truthy env ("MBT_WGPU_DISABLE_COMPILATION_INFO") = false →
      mbt_wgpu_env_truthy env ("MBT_WGPU_ENABLE_COMPILATION_INFO") = false →
      ((mbt_wgpu_compilation_info_enabled os env fs initialGateState).1 = true ↔
        mbt_wgpu_marker_allows_current_lib os env fs
          MBT_WGPU_MARKER_COMPILATION_INFO = true)) := by
  refine ⟨?_, ?_, ?_, ?_, ?_, ?_, ?_⟩
  · intro hd
    simp [mbt_wgpu_pipeline_async_enabled, hd]
  · intro hd he
    simp [mbt_wgpu_pipeline_async_enabled, hd, he, initialGateState]
  · intro hd he
    simp [mbt_wgpu_pipeline_async_enabled, hd, he, initialGateState]
  · intro fn hm
    unfold mbt_wgpu_marker_allows_current_lib at hm
    cases hrec : markerRecordedLibPath os env fs fn with
    | none => rw [hrec] at hm; exact absurd hm (by simp)
    | some mlib =>
      rw [hrec] at hm
      cases hcur : mbt_wgpu_native_resolve_lib_path os env 4096 with
      | none => rw [hcur] at hm; exact absurd hm (by simp)
      | some cur =>
        rw [hcur] at hm
        by_cases hemp : cur.isEmpty
        · simp [hemp] at hm
        · simp [hemp] at hm
          exact ⟨cur, by rw [hm], rfl⟩
  · intro hd
    simp [mbt_wgpu_compilation_info_enabled, hd]
  · intro hd he
    simp [mbt_wgpu_compilation_info_enabled, hd, he, initialGateState]
  · intro hd he
    simp [mbt_wgpu_compilation_info_enabled, hd, he, initialGateState]

/-- C2 witness: with the disable variable set to `1`, the gate reports the
feature off from the initial state. -/
theorem c2_feature_gate_precedence_witness :
    mbt_wgpu_env_truthy envDisableOnly ("MBT_WGPU_DISABLE_PIPELINE_ASYNC") = true ∧
    (mbt_wgpu_pipeline_async_enabled .linux envDisableOnly fsEmpty
      initialGateState).1 = false :=
  ⟨by decide,
    (c2_feature_gate_precedence .linux envDisableOnly fsEmpty).1 (by decide)⟩

theorem firstKeyIdx_eq_none_iff (reg : List LostEntry) (d : Nat) :
    firstKeyIdx reg d = none ↔ ∀ e ∈ reg, e.1 ≠ d := by
  induction reg with
  | nil => simp [firstKeyIdx]
  | cons e t ih =>
    by_cases h : e.1 = d
    · simp [firstKeyIdx, h]
    · simp [firstKeyIdx, h, ih]

theorem firstKeyIdx_eq_some_getElem (reg : List LostEntry) (d i : Nat)
    (h : firstKeyIdx reg d = some i) : ∃ r, reg[i]? = some (d, r) := by
  induction reg generalizing i with
  | nil => simp [firstKeyIdx] at h
  | cons e t ih =>
    by_cases he : e.1 = d
    · simp only [firstKeyIdx, if_pos he, Option.some.injEq] at h
      subst h
      exact ⟨e.2, by simp [← he]⟩
    · simp only [firstKeyIdx, if_neg he] at h
      cases hft : firstKeyIdx t d with
      | none => rw [hft] at h; simp at h
      | some k =>
        rw [hft] at h
        simp only [Option.map_some', Option.some.injEq] at h
        subst h
        obtain ⟨r, hr⟩ := ih k hft
        exact ⟨r, by simpa using hr⟩

theorem firstKeyIdx_append_fresh (l1 : List LostEntry) (d r : Nat)
    (h : ∀ e ∈ l1, e.1 ≠ d) :
    firstKeyIdx (l1 ++ [(d, r)]) d = some l1.length := by
  induction l1 with
  | nil => simp [firstKeyIdx]
  | cons e t ih =>
    have he : e.1 ≠ d := h e (by simp)
    have ht : ∀ x ∈ t, x.1 ≠ d := fun x hx => h x (by simp [hx])
    simp [firstKeyIdx, he, ih ht]

theorem upsertGo_eq_none_iff (reg : List LostEntry) (d r : Nat) :
    upsertGo reg d r = none ↔ ∀ e ∈ reg, e.1 ≠ d := by
  induction reg with
  | nil => simp [upsertGo]
  | cons e t ih =>
    by_cases h : e.1 = d
    · simp [upsertGo, h]
    · simp [upsertGo, h, ih]

theorem upsertGo_some_spec (reg : List LostEntry) (d r : Nat)
    (reg2 : List LostEntry) (h : upsertGo reg d r = some reg2) :
    ∃ i, firstKeyIdx reg d = some i ∧ reg2.length = reg.length ∧
      reg2[i]? = some (d, r) ∧ (∀ j, j ≠ i → reg2[j]? = reg[j]?) ∧
      reg2.map Prod.fst = reg.map Prod.fst := by
  induction reg generalizing reg2 with
  | nil => simp [upsertGo] at h
  | cons e t ih =>
    by_cases he : e.1 = d
    · simp only [upsertGo, if_pos he, Option.some.injEq] at h
      subst h
      refine ⟨0, by simp [firstKeyIdx, he], by simp, by simp [he], ?_, by simp [he]⟩
      intro j hj
      cases j with
      | zero => exact absurd rfl hj
      | succ k => simp
    · simp only [upsertGo, if_neg he] at h
      cases hgo : upsertGo t d r with
      | none => rw [hgo] at h; simp at h
      | some t2 =>
        rw [hgo] at h
        simp only [Option.map_some', Option.some.injEq] at h
        subst h
        obtain ⟨i, hfi, hlen, hget, hother, hkeys⟩ := ih t2 hgo
        refine ⟨i + 1, by simp [firstKeyIdx, he, hfi], by simp [hlen],
          by simpa using hget, ?_, by simp [hkeys]⟩
        intro j hj
        cases j with
        | zero => simp
        | succ k =>
          have : k ≠ i := fun hk => hj (by rw [hk])
          simpa using hother k this

/-- C8: the registry never exceeds 16 entries, and an upsert for a device
not already tracked into a full registry leaves the registry completely
unchanged, so every already-present entry remains intact and queryable. -/
theorem c8_registry_capacity_bound (reg : List LostEntry) (d r : Nat) :
    (reg.length ≤ 16 → (mbt_device_lost_upsert reg d r).length ≤ 16) ∧
    (reg.length = 16 → (∀ e ∈ reg, e.1 ≠ d) →
      mbt_device_lost_upsert reg d r = reg ∧
      ∀ d2, mbt_wgpu_device_take_lost_reason_u32
        (mbt_device_lost_upsert reg d r) d2 =
        mbt_wgpu_device_take_lost_reason_u32 reg d2) := by
  constructor
  · intro hle
    unfold mbt_device_lost_upsert
    cases hgo : upsertGo reg d r with
    | some reg2 =>
      obtain ⟨i, _, hlen, _, _, _⟩ := upsertGo_some_spec reg d r reg2 hgo
      simpa [hlen] using hle
    | none =>
      by_cases hlt : reg.length < 16
      · simp [hlt]; omega
      · simp [hlt]; exact hle
  · intro hfull hfresh
    have hgo : upsertGo reg d r = none := (upsertGo_eq_none_iff reg d r).2 hfresh
    have heq : mbt_device_lost_upsert reg d r = reg := by
      unfold mbt_device_lost_upsert
      rw [hgo]
      simp [hfull]
    exact ⟨heq, fun d2 => by rw [heq]⟩

/-- C8 witness: a concrete full registry of 16 distinct devices and a fresh
device 17 whose event is dropped. -/
theorem c8_registry_capacity_bound_witness :
    ((List.range 16).map (fun k => (k + 1, 5))).length = 16 ∧
    mbt_device_lost_upsert ((List.range 16).map (fun k => (k + 1, 5))) 17 9 =
      (List.range 16).map (fun k => (k + 1, 5)) :=
  ⟨by decide,
    ((c8_registry_capacity_bound ((List.range 16).map (fun k => (k + 1, 5)))
      17 9).2 (by decide) (by decide)).1⟩

/-- C10: upserting a reason for an already-tracked device overwrites only
that device's first entry in place: the registry length is unchanged, the
matched slot now holds `(d, r)`, and every other slot is unchanged. -/
theorem c10_upsert_in_place (reg : List LostEntry) (d r i : Nat)
    (h : firstKeyIdx reg d = some i) :
    (mbt_device_lost_upsert reg d r).length = reg.length ∧
    (mbt_device_lost_upsert reg d r)[i]? = some (d, r) ∧
    ∀ j, j ≠ i → (mbt_device_lost_upsert reg d r)[j]? = reg[j]? := by
  cases hgo : upsertGo reg d r with
  | none =>
    rw [upsertGo_eq_none_iff] at hgo
    rw [(firstKeyIdx_eq_none_iff reg d).2 hgo] at h
    simp at h
  | some reg2 =>
    obtain ⟨i2, hfi, hlen, hget, hother, _⟩ := upsertGo_some_spec reg d r reg2 hgo
    have hi : i2 = i := by rw [hfi] at h; exact Option.some.inj h
    subst hi
    have hup : mbt_device_lost_upsert reg d r = reg2 := by
      unfold mbt_device_lost_upsert; rw [hgo]
    rw [hup]
    exact ⟨hlen, hget, hother⟩

/-- C10 witness: overwriting device 2's reason in a three-entry registry. -/
theorem c10_upsert_in_place_witness :
    firstKeyIdx [(1, 4), (2, 4), (3, 4)] 2 = some 1 ∧
    (mbt_device_lost_upsert [(1, 4), (2, 4), (3, 4)] 2 7)[1]? = some (2, 7) :=
  ⟨by decide, (c10_upsert_in_place [(1, 4), (2, 4), (3, 4)] 2 7 1 (by decide)).2.1⟩

theorem firstKeyIdx_eq_keyIdx (reg : List LostEntry) (d : Nat) :
    firstKeyIdx reg d = keyIdx (reg.map Prod.fst) d := by
  induction reg with
  | nil => rfl
  | cons e t ih => by_cases h : e.1 = d <;> simp [firstKeyIdx, keyIdx, h, ih]

theorem firstKeyIdx_isSome_of_mem (reg : List LostEntry) (d : Nat)
    (h : d ∈ reg.map Prod.fst) : ∃ i, firstKeyIdx reg d = some i := by
  cases hfi : firstKeyIdx reg d with
  | some i => exact ⟨i, rfl⟩
  | none =>
    rw [firstKeyIdx_eq_none_iff] at hfi
    obtain ⟨e, he, hed⟩ := List.mem_map.1 h
    exact absurd hed (hfi e he)

/-- Distinct positions of a key-Nodup registry hold distinct keys. -/
theorem key_unique (reg : List LostEntry) (hnd : (reg.map Prod.fst).Nodup)
    {i j : Nat} (hi : i < reg.length) (hj : j < reg.length) (hne : i ≠ j) :
    reg[i].1 ≠ reg[j].1 := by
  intro he
  have hi2 : i < (reg.map Prod.fst).length := by simpa using hi
  have hj2 : j < (reg.map Prod.fst).length := by simpa using hj
  have : (reg.map Prod.fst).get ⟨i, hi2⟩ = (reg.map Prod.fst).get ⟨j, hj2⟩ := by
    simpa [List.getElem_map] using he
  exact hne (congrArg Fin.val (hnd.get_inj_iff.1 this))

/-- After `take` finds and removes the unique entry for `d`, no entry for
`d` remains and the recorded reason is returned. -/
theorem take_first_removes (reg : List LostEntry) (d i rr : Nat)
    (hnd : (reg.map Prod.fst).Nodup)
    (hfi : firstKeyIdx reg d = some i)
    (hget : reg[i]? = some (d, rr)) :
    mbt_wgpu_device_take_lost_reason_u32 reg d =
      (rr, (reg.set i (reg.getLastD (0, 0))).dropLast) ∧
    ∀ e ∈ (reg.set i (reg.getLastD (0, 0))).dropLast, e.1 ≠ d := by
  have hi : i < reg.length := by
    by_contra hge
    rw [List.getElem?_eq_none (Nat.le_of_not_lt hge)] at hget
    exact absurd hget (by simp)
  have hgete : reg[i] = (d, rr) := by
    have := List.getElem?_eq_getElem hi
    rw [hget] at this
    exact (Option.some.inj this).symm
  have hlen1 : 1 ≤ reg.length := Nat.lt_of_le_of_lt (Nat.zero_le i) hi
  have hlast : reg.getLastD (0, 0) =
      reg.get ⟨reg.length - 1, by omega⟩ := by
    rw [List.getLastD_eq_getLast?, List.getLast?_eq_getElem?,
      List.getElem?_eq_getElem (by omega : reg.length - 1 < reg.length)]
    rfl
  constructor
  · unfold mbt_wgpu_device_take_lost_reason_u32
    rw [hfi]
    simp [hget]
  · intro e he
    rw [List.mem_iff_getElem] at he
    obtain ⟨j, hj, hje⟩ := he
    have hj2 : j < reg.length - 1 := by
      simpa [List.length_dropLast, List.length_set] using hj
    have hjset : j < (reg.set i (reg.getLastD (0, 0))).length := by
      simpa [List.length_set] using (by omega : j < reg.length)
    have hdl : (reg.set i (reg.getLastD (0, 0))).dropLast[j] =
        (reg.set i (reg.getLastD (0, 0)))[j] := List.getElem_dropLast _ j hj
    rw [hdl, List.getElem_set] at hje
    by_cases hij : i = j
    · rw [if_pos hij, hlast] at hje
      have hne : reg.length - 1 ≠ i := by omega
      have := key_unique reg hnd (by omega : reg.length - 1 < reg.length) hi hne
      rw [hgete] at this
      rw [← hje]
      exact this
    · rw [if_neg hij] at hje
      have := key_unique reg hnd (by omega : j < reg.length) hi
        (fun hc => hij hc.symm)
      rw [hgete] at this
      rw [← hje]
      exact this

/-- C7 counterexample: destroying device 17 while the registry is full with
16 other devices silently drops the synthesized "destroyed" event, so the
following take returns 0 ("no event") instead of the destroyed sentinel. -/
theorem c7_counterexample :
    (mbt_wgpu_device_take_lost_reason_u32
      (mbt_wgpu_device_destroy_record_lost regFull16 17) 17).1 ≠
      WGPUDeviceLostReason_Destroyed := by decide

/-- C7 (amended): provided the device is already tracked or the registry is
not full (and device keys are distinct, as the upsert discipline maintains),
destroy-record-lost makes the next take return the destroyed sentinel, and
the take consumes the entry so an immediately following take returns 0. -/
theorem c7_destroy_then_take_amended (reg : List LostEntry) (d : Nat)
    (hnd : (reg.map Prod.fst).Nodup)
    (hcap : d ∈ reg.map Prod.fst ∨ reg.length < 16) :
    ∃ reg2,
      mbt_wgpu_device_take_lost_reason_u32
        (mbt_wgpu_device_destroy_record_lost reg d) d =
        (WGPUDeviceLostReason_Destroyed, reg2) ∧
      mbt_wgpu_device_take_lost_reason_u32 reg2 d = (0, reg2) := by
  have hmain : ∃ reg1 i, mbt_wgpu_device_destroy_record_lost reg d = reg1 ∧
      (reg1.map Prod.fst).Nodup ∧ firstKeyIdx reg1 d = some i ∧
      reg1[i]? = some (d, WGPUDeviceLostReason_Destroyed) := by
    rcases hcap with hmem | hlt
    · obtain ⟨i, hfi⟩ := firstKeyIdx_isSome_of_mem reg d hmem
      cases hgo : upsertGo reg d WGPUDeviceLostReason_Destroyed with
      | none =>
        rw [upsertGo_eq_none_iff] at hgo
        rw [(firstKeyIdx_eq_none_iff reg d).2 hgo] at hfi
        exact absurd hfi (by simp)
      | some reg1 =>
        obtain ⟨i2, hfi2, _, hget, _, hkeys⟩ :=
          upsertGo_some_spec reg d WGPUDeviceLostReason_Destroyed reg1 hgo
        refine ⟨reg1, i2, ?_, by rw [hkeys]; exact hnd, ?_, hget⟩
        · unfold mbt_wgpu_device_destroy_record_lost mbt_device_lost_upsert
          rw [hgo]
        · rw [firstKeyIdx_eq_keyIdx, hkeys, ← firstKeyIdx_eq_keyIdx]
          exact hfi2
    · by_cases hmem : d ∈ reg.map Prod.fst
      · obtain ⟨i, hfi⟩ := firstKeyIdx_isSome_of_mem reg d hmem
        cases hgo : upsertGo reg d WGPUDeviceLostReason_Destroyed with
        | none =>
          rw [upsertGo_eq_none_iff] at hgo
          rw [(firstKeyIdx_eq_none_iff reg d).2 hgo] at hfi
          exact absurd hfi (by simp)
        | some reg1 =>
          obtain ⟨i2, hfi2, _, hget, _, hkeys⟩ :=
            upsertGo_some_spec reg d WGPUDeviceLostReason_Destroyed reg1 hgo
          refine ⟨reg1, i2, ?_, by rw [hkeys]; exact hnd, ?_, hget⟩
          · unfold mbt_wgpu_device_destroy_record_lost mbt_device_lost_upsert
            rw [hgo]
          · rw [firstKeyIdx_eq_keyIdx, hkeys, ← firstKeyIdx_eq_keyIdx]
            exact hfi2
      · have hfresh : ∀ e ∈ reg, e.1 ≠ d := by
          intro e he hed
          exact hmem (List.mem_map.2 ⟨e, he, hed⟩)
        have hgo : upsertGo reg d WGPUDeviceLostReason_Destroyed = none :=
          (upsertGo_eq_none_iff reg d _).2 hfresh
        refine ⟨reg ++ [(d, WGPUDeviceLostReason_Destroyed)], reg.length,
          ?_, ?_, firstKeyIdx_append_fresh reg d _ hfresh, by simp⟩
        · unfold mbt_wgpu_device_destroy_record_lost mbt_device_lost_upsert
          rw [hgo]
          simp [hlt]
        · rw [List.map_append]
          rw [List.nodup_append]
          refine ⟨hnd, by simp, ?_⟩
          intro k hk hk2
          simp at hk2
          subst hk2
          exact hmem hk
  obtain ⟨reg1, i, hdef, hnd1, hfi1, hget1⟩ := hmain
  have hg2 := firstKeyIdx_eq_some_getElem reg1 d i hfi1
  obtain ⟨htake, hclean⟩ :=
    take_first_removes reg1 d i WGPUDeviceLostReason_Destroyed hnd1 hfi1 hget1
  refine ⟨(reg1.set i (reg1.getLastD (0, 0))).dropLast, by rw [hdef]; exact htake, ?_⟩
  unfold mbt_wgpu_device_take_lost_reason_u32
  rw [(firstKeyIdx_eq_none_iff _ d).2 hclean]

/-- C7 witness: destroying a tracked device in a small registry yields the
destroyed sentinel exactly once. -/
theorem c7_destroy_then_take_amended_witness :
    ([(1, 4), (2, 4)] : List LostEntry).map Prod.fst = [1, 2] ∧
    ∃ reg2,
      mbt_wgpu_device_take_lost_reason_u32
        (mbt_wgpu_device_destroy_record_lost [(1, 4), (2, 4)] 2) 2 =
        (WGPUDeviceLostReason_Destroyed, reg2) ∧
      mbt_wgpu_device_take_lost_reason_u32 reg2 2 = (0, reg2) :=
  ⟨by decide,
    c7_destroy_then_take_amended [(1, 4), (2, 4)] 2 (by decide) (Or.inr (by decide))⟩

theorem pollStatusGo_le (statusAt : Nat → Nat) :
    ∀ fuel i, pollStatusGo statusAt fuel i ≤ fuel := by
  intro fuel
  induction fuel with
  | zero => intro i; simp [pollStatusGo]
  | succ f ih =>
    intro i
    unfold pollStatusGo
    by_cases h : statusAt i ≠ 0
    · simp [h]
    · simp only [h, if_neg, ite_false]
      have := ih (i + 1)
      omega

theorem pollStatusGo_all_zero (statusAt : Nat → Nat)
    (h : ∀ i, statusAt i = 0) : ∀ fuel i, pollStatusGo statusAt fuel i = fuel := by
  intro fuel
  induction fuel with
  | zero => intro i; rfl
  | succ f ih =>
    intro i
    unfold pollStatusGo
    simp [h i, ih (i + 1)]

theorem waitLostGo_iters_le (pump : Nat → List LostEntry → List LostEntry)
    (d : Nat) : ∀ fuel i reg, (waitLostGo pump d fuel i reg).2.2 ≤ fuel := by
  intro fuel
  induction fuel with
  | zero => intro i reg; simp [waitLostGo]
  | succ f ih =>
    intro i reg
    unfold waitLostGo
    by_cases h : (mbt_wgpu_device_take_lost_reason_u32 reg d).1 ≠ 0
    · simp [h]
    · simp only [h, ite_false, if_neg]
      have := ih (i + 1) (pump i (mbt_wgpu_device_take_lost_reason_u32 reg d).2)
      omega

theorem take_not_mem (reg : List LostEntry) (d : Nat)
    (h : d ∉ reg.map Prod.fst) :
    mbt_wgpu_device_take_lost_reason_u32 reg d = (0, reg) := by
  have hfresh : ∀ e ∈ reg, e.1 ≠ d := by
    intro e he hed
    exact h (List.mem_map.2 ⟨e, he, hed⟩)
  unfold mbt_wgpu_device_take_lost_reason_u32
  rw [(firstKeyIdx_eq_none_iff reg d).2 hfresh]

theorem waitLostGo_never_fires (pump : Nat → List LostEntry → List LostEntry)
    (d : Nat)
    (hp : ∀ i r, d ∉ r.map Prod.fst → d ∉ (pump i r).map Prod.fst) :
    ∀ fuel i reg, d ∉ reg.map Prod.fst →
      (waitLostGo pump d fuel i reg).1 = 0 ∧
      (waitLostGo pump d fuel i reg).2.2 = fuel := by
  intro fuel
  induction fuel with
  | zero => intro i reg _; exact ⟨rfl, rfl⟩
  | succ f ih =>
    intro i reg hreg
    have ht := take_not_mem reg d hreg
    have hrec := ih (i + 1) (pump i reg) (hp i reg hreg)
    simp [waitLostGo, ht, hrec.1, hrec.2]

/-- C3: every bounded call site runs its poll loop at most 2000 iterations,
and when the native callback never fires (the result slot stays 0 at every
check) it returns the timeout outcome after exactly 2000 iterations:
reason 0 for the device-lost wait, and NULL with the timed-out error kind
for the strict async pipeline wrappers and the compilation-info request. -/
theorem c3_bounded_wait_termination :
    (∀ (pump : Nat → List LostEntry → List LostEntry) (d : Nat)
        (reg : List LostEntry),
      (mbt_wgpu_device_wait_lost_reason_sync_u32 pump d reg).2.2 ≤ 2000 ∧
      ((∀ i r, d ∉ r.map Prod.fst → d ∉ (pump i r).map Prod.fst) →
        d ∉ reg.map Prod.fst →
        (mbt_wgpu_device_wait_lost_reason_sync_u32 pump d reg).1 = 0 ∧
        (mbt_wgpu_device_wait_lost_reason_sync_u32 pump d reg).2.2 = 2000)) ∧
    (∀ (os : OSKind) (env : Env) (fs : FS) (gate : GateState) (s : Nat)
        (statusAt : Nat → Nat) (pipelineAt : Nat → Option Nat)
        (inst dev desc : Option Nat),
      (mbt_wgpu_device_create_compute_pipeline_async_sync_ptr_strict os env fs
        gate (some s) statusAt pipelineAt inst dev desc).iters ≤ 2000 ∧
      ((∀ i, statusAt i = 0) → inst ≠ none → dev ≠ none → desc ≠ none →
        (mbt_wgpu_pipeline_async_enabled os env fs gate).1 = true →
        mbt_wgpu_device_create_compute_pipeline_async_sync_ptr_strict os env fs
          gate (some s) statusAt pipelineAt inst dev desc =
        ⟨none, 0, MBT_WGPU_PIPELINE_ASYNC_ERR_TIMEOUT, 2000,
          (mbt_wgpu_pipeline_async_enabled os env fs gate).2⟩)) ∧
    (∀ (os : OSKind) (env : Env) (fs : FS) (gate : GateState) (s : Nat)
        (statusAt : Nat → Nat) (pipelineAt : Nat → Option Nat)
        (inst dev desc : Option Nat),
      (mbt_wgpu_device_create_render_pipeline_async_sync_ptr_strict os env fs
        gate (some s) statusAt pipelineAt inst dev desc).iters ≤ 2000 ∧
      ((∀ i, statusAt i = 0) → inst ≠ none → dev ≠ none → desc ≠ none →
        (mbt_wgpu_pipeline_async_enabled os env fs gate).1 = true →
        mbt_wgpu_device_create_render_pipeline_async_sync_ptr_strict os env fs
          gate (some s) statusAt pipelineAt inst dev desc =
        ⟨none, 0, MBT_WGPU_PIPELINE_ASYNC_ERR_TIMEOUT, 2000,
          (mbt_wgpu_pipeline_async_enabled os env fs gate).2⟩)) ∧
    (∀ (os : OSKind) (env : Env) (fs : FS) (gate : GateState) (s : Nat)
        (statusAt : Nat → Nat) (messagesAt : Nat → List CompMessageText)
        (inst shader : Option Nat),
      (mbt_wgpu_shader_module_get_compilation_info_sync_new os env fs gate
        (some s) true statusAt messagesAt inst shader).iters ≤ 2000 ∧
      ((∀ i, statusAt i = 0) → inst ≠ none → shader ≠ none →
        (mbt_wgpu_compilation_info_enabled os env fs gate).1 = true →
        mbt_wgpu_shader_module_get_compilation_info_sync_new os env fs gate
          (some s) true statusAt messagesAt inst shader =
        ⟨none, 0, MBT_WGPU_COMPILATION_INFO_ERR_TIMEOUT, 2000,
          (mbt_wgpu_compilation_info_enabled os env fs gate).2⟩)) := by
  refine ⟨?_, ?_, ?_, ?_⟩
  · intro pump d reg
    refine ⟨waitLostGo_iters_le pump d 2000 0 reg, ?_⟩
    intro hp hreg
    exact waitLostGo_never_fires pump d hp 2000 0 reg hreg
  · intro os env fs gate s statusAt pipelineAt inst dev desc
    constructor
    · unfold mbt_wgpu_device_create_compute_pipeline_async_sync_ptr_strict
      have hle := pollStatusGo_le statusAt 2000 0
      split <;> try simp
      split <;> try simp
      split
      · simp [pollIters, hle]
      · split <;> simp [pollIters, hle]
    · intro hz hi hd hdesc hg
      have hiters : pollIters statusAt = 2000 := pollStatusGo_all_zero statusAt hz 2000 0
      unfold mbt_wgpu_device_create_compute_pipeline_async_sync_ptr_strict
      rw [if_neg (by simp [hi, hd, hdesc])]
      simp only [hg, hiters]
      simp [hz 2000]
  · intro os env fs gate s statusAt pipelineAt inst dev desc
    constructor
    · unfold mbt_wgpu_device_create_render_pipeline_async_sync_ptr_strict
      have hle := pollStatusGo_le statusAt 2000 0
      split <;> try simp
      split <;> try simp
      split
      · simp [pollIters, hle]
      · split <;> simp [pollIters, hle]
    · intro hz hi hd hdesc hg
      have hiters : pollIters statusAt = 2000 := pollStatusGo_all_zero statusAt hz 2000 0
      unfold mbt_wgpu_device_create_render_pipeline_async_sync_ptr_strict
      rw [if_neg (by simp [hi, hd, hdesc])]
      simp only [hg, hiters]
      simp [hz 2000]
  · intro os env fs gate s statusAt messagesAt inst shader
    constructor
    · unfold mbt_wgpu_shader_module_get_compilation_info_sync_new
      have hle := pollStatusGo_le statusAt 2000 0
      split <;> try simp
      split <;> try simp
      split <;> simp [pollIters, hle]
    · intro hz hi hs hg
      have hiters : pollIters statusAt = 2000 := pollStatusGo_all_zero statusAt hz 2000 0
      unfold mbt_wgpu_shader_module_get_compilation_info_sync_new
      rw [if_neg (by simp [hi, hs])]
      simp only [hg, hiters]
      simp [hz 2000]

/-- C3 witness: a stub whose callback never fires makes the strict compute
wrapper time out after 2000 iterations. -/
theorem c3_bounded_wait_termination_witness :
    (∀ i : Nat, (fun _ : Nat => 0) i = 0) ∧
    mbt_wgpu_device_create_compute_pipeline_async_sync_ptr_strict .linux
      envEnablePipelineAsync fsEmpty initialGateState (some 7)
      (fun _ => 0) (fun _ => none) (some 1) (some 2) (some 3) =
    ⟨none, 0, MBT_WGPU_PIPELINE_ASYNC_ERR_TIMEOUT, 2000,
      (mbt_wgpu_pipeline_async_enabled .linux envEnablePipelineAsync fsEmpty
        initialGateState).2⟩ :=
  ⟨fun _ => rfl,
    (c3_bounded_wait_termination.2.1 .linux envEnablePipelineAsync fsEmpty
      initialGateState 7 (fun _ => 0) (fun _ => none)
      (some 1) (some 2) (some 3)).2 (fun _ => rfl) (by simp) (by simp) (by simp)
      (by decide)⟩

/-- C5: the lenient pipeline wrappers return the blocking synchronous
creation result on the same device and descriptor whenever the async path
is unusable: gate off, missing symbol, null instance, timeout, non-success
status, or null async pipeline. -/
theorem c5_lenient_fallback_to_sync :
    (∀ (os : OSKind) (env : Env) (fs : FS) (gate : GateState) (pfn : Option Nat)
        (statusAt : Nat → Nat) (pipelineAt : Nat → Option Nat)
        (inst dev desc : Option Nat)
        (syncCreate : Option Nat → Option Nat → Option Nat),
      (inst = none ∨ (mbt_wgpu_pipeline_async_enabled os env fs gate).1 = false ∨
        pfn = none ∨
        statusAt (pollIters statusAt) ≠ WGPUCreatePipelineAsyncStatus_Success ∨
        pipelineAt (pollIters statusAt) = none) →
      (mbt_wgpu_device_create_compute_pipeline_async_sync_ptr os env fs gate pfn
        statusAt pipelineAt inst dev desc syncCreate).1 = syncCreate dev desc) ∧
    (∀ (os : OSKind) (env : Env) (fs : FS) (gate : GateState) (pfn : Option Nat)
        (statusAt : Nat → Nat) (pipelineAt : Nat → Option Nat)
        (inst dev desc : Option Nat)
        (syncCreate : Option Nat → Option Nat → Option Nat),
      (inst = none ∨ (mbt_wgpu_pipeline_async_enabled os env fs gate).1 = false ∨
        pfn = none ∨
        statusAt (pollIters statusAt) ≠ WGPUCreatePipelineAsyncStatus_Success ∨
        pipelineAt (pollIters statusAt) = none) →
      (mbt_wgpu_device_create_render_pipeline_async_sync_ptr os env fs gate pfn
        statusAt pipelineAt inst dev desc syncCreate).1 = syncCreate dev desc) := by
  constructor
  · intro os env fs gate pfn statusAt pipelineAt inst dev desc syncCreate hfail
    unfold mbt_wgpu_device_create_compute_pipeline_async_sync_ptr
    rcases hfail with h | h | h | h | h
    · simp [h]
    · by_cases hi : inst = none
      · simp [hi]
      · simp [hi, h]
    · by_cases hi : inst = none
      · simp [hi]
      · by_cases hg : (mbt_wgpu_pipeline_async_enabled os env fs gate).1 = false
        · simp [hi, hg]
        · simp [hi, hg, h]
    · by_cases hi : inst = none
      · simp [hi]
      · by_cases hg : (mbt_wgpu_pipeline_async_enabled os env fs gate).1 = false
        · simp [hi, hg]
        · cases pfn with
          | none => simp [hi, hg]
          | some v => simp [hi, hg, h]
    · by_cases hi : inst = none
      · simp [hi]
      · by_cases hg : (mbt_wgpu_pipeline_async_enabled os env fs gate).1 = false
        · simp [hi, hg]
        · cases pfn with
          | none => simp [hi, hg]
          | some v => simp [hi, hg, h]
  · intro os env fs gate pfn statusAt pipelineAt inst dev desc syncCreate hfail
    unfold mbt_wgpu_device_create_render_pipeline_async_sync_ptr
    rcases hfail with h | h | h | h | h
    · simp [h]
    · by_cases hi : inst = none
      · simp [hi]
      · simp [hi, h]
    · by_cases hi : inst = none
      · simp [hi]
      · by_cases hg : (mbt_wgpu_pipeline_async_enabled os env fs gate).1 = false
        · simp [hi, hg]
        · simp [hi, hg, h]
    · by_cases hi : inst = none
      · simp [hi]
      · by_cases hg : (mbt_wgpu_pipeline_async_enabled os env fs gate).1 = false
        · simp [hi, hg]
        · cases pfn with
          | none => simp [hi, hg]
          | some v => simp [hi, hg, h]
    · by_cases hi : inst = none
      · simp [hi]
      · by_cases hg : (mbt_wgpu_pipeline_async_enabled os env fs gate).1 = false
        · simp [hi, hg]
        · cases pfn with
          | none => simp [hi, hg]
          | some v => simp [hi, hg, h]

/-- C5 witness: with a null instance the compute wrapper returns the
synchronous creation result. -/
theorem c5_lenient_fallback_to_sync_witness :
    ((none : Option Nat) = none ∨
      (mbt_wgpu_pipeline_async_enabled .linux envDisableOnly fsEmpty
        initialGateState).1 = false ∨ (some 7 : Option Nat) = none ∨
      (fun _ : Nat => 0) (pollIters (fun _ => 0)) ≠
        WGPUCreatePipelineAsyncStatus_Success ∨
      (fun _ : Nat => none : Nat → Option Nat) (pollIters (fun _ => 0)) = none) ∧
    (mbt_wgpu_device_create_compute_pipeline_async_sync_ptr .linux envDisableOnly
      fsEmpty initialGateState (some 7) (fun _ => 0) (fun _ => none)
      none (some 2) (some 3) (fun _ _ => some 42)).1 = some 42 :=
  ⟨Or.inl rfl,
    c5_lenient_fallback_to_sync.1 .linux envDisableOnly fsEmpty initialGateState
      (some 7) (fun _ => 0) (fun _ => none) none (some 2) (some 3)
      (fun _ _ => some 42) (Or.inl rfl)⟩

theorem open_impl_cache_hit (os : OSKind) (c : OpenCallCtx) (h : Nat) :
    mbt_wgpu_native_open_impl os c (some h) = ⟨.ok h, some h, false, 0⟩ := rfl

theorem runOpens_cached (os : OSKind) (h : Nat) :
    ∀ cs : List OpenCallCtx,
      (runOpens os (some h) cs).1 = cs.map (fun _ => .ok h) ∧
      (runOpens os (some h) cs).2.1 = some h ∧
      (runOpens os (some h) cs).2.2.1 = 0 ∧
      (runOpens os (some h) cs).2.2.2 = 0 := by
  intro cs
  induction cs with
  | nil => exact ⟨rfl, rfl, rfl, rfl⟩
  | cons c cs ih =>
    simp only [runOpens, open_impl_cache_hit, List.map_cons]
    exact ⟨by rw [ih.1], ih.2.1, by rw [ih.2.2.1], by simp [ih.2.2.2]⟩

theorem runOpens_happy_loads_le_one (os : OSKind) :
    ∀ (cs : List OpenCallCtx) (cache : Option Nat), happyLoads cs →
      (runOpens os cache cs).2.2.1 ≤ 1 := by
  intro cs
  induction cs with
  | nil => intro cache _; simp [runOpens]
  | cons c cs ih =>
    intro cache hh
    have hhcs : happyLoads cs := fun x hx => hh x (by simp [hx])
    cases cache with
    | some h =>
      have := (runOpens_cached os h (c :: cs)).2.2.1
      omega
    | none =>
      simp only [runOpens]
      cases hres : mbt_wgpu_native_resolve_lib_path os c.env 1024 with
      | none =>
        simp only [mbt_wgpu_native_open_impl, hres]
        have := ih none hhcs
        omega
      | some path =>
        by_cases hemp : path.isEmpty
        · simp only [mbt_wgpu_native_open_impl, hres, hemp, if_pos, ite_true]
          have := ih none hhcs
          omega
        · cases hload : c.load path with
          | none => exact absurd hload (hh c (by simp) path)
          | some lib =>
            have hc := (runOpens_cached os lib cs).2.2.1
            simp [mbt_wgpu_native_open_impl, hres, hemp, hload, hc]

/-- C4: once the cached handle is non-null, (a) a single open call returns
exactly that handle without re-resolving or loading and leaves the cache
unchanged, (b) every call of any subsequent sequence returns that handle
with zero loads and zero resolutions, and (c) on the happy path (all loads
succeed) the OS loader is invoked at most once across any call sequence. -/
theorem c4_idempotent_open (os : OSKind) :
    (∀ (c : OpenCallCtx) (h : Nat),
      mbt_wgpu_native_open_impl os c (some h) =
        ⟨.ok h, some h, false, 0⟩) ∧
    (∀ (h : Nat) (cs : List OpenCallCtx),
      (runOpens os (some h) cs).1 = cs.map (fun _ => .ok h) ∧
      (runOpens os (some h) cs).2.1 = some h ∧
      (runOpens os (some h) cs).2.2.1 = 0 ∧
      (runOpens os (some h) cs).2.2.2 = 0) ∧
    (∀ (cs : List OpenCallCtx) (cache : Option Nat), happyLoads cs →
      (runOpens os cache cs).2.2.1 ≤ 1) := by
  exact ⟨fun c h => open_impl_cache_hit os c h,
    fun h cs => runOpens_cached os h cs,
    fun cs cache hh => runOpens_happy_loads_le_one os cs cache hh⟩

/-- C4 witness: two concrete calls after the cache holds handle 5 both
return handle 5 with no loads and no resolutions. -/
theorem c4_idempotent_open_witness :
    happyLoads [⟨true, envDisableOnly, fun _ => some 9⟩] ∧
    (runOpens .linux (some 5) [⟨true, envDisableOnly, fun _ => some 9⟩]).2.2.1 ≤ 1 :=
  ⟨fun c hc path => by rw [List.mem_singleton] at hc; subst hc; simp,
    (c4_idempotent_open .linux).2.2 [⟨true, envDisableOnly, fun _ => some 9⟩]
      (some 5) (fun c hc path => by rw [List.mem_singleton] at hc; subst hc; simp)⟩

/-- C9 counterexample: in the optional-symbol module a failed first
resolve-and-load attempt IS cached by the once-primitive. A later call in
an environment where resolution and loading would succeed performs no path
resolution (`ran = false`) and still returns `none`, while the same call
from a fresh once-state would return the symbol. -/
theorem c9_counterexample :
    (mbt_wgpu_optional_sym .linux envGoodHome (fun _ => some 7)
      (fun _ _ => some 5) (("wgpuCreateInstance").data)
      onceStateAfterFailedInit).2.2 = false ∧
    (mbt_wgpu_optional_sym .linux envGoodHome (fun _ => some 7)
      (fun _ _ => some 5) (("wgpuCreateInstance").data)
      onceStateAfterFailedInit).1 = none ∧
    (mbt_wgpu_optional_sym .linux envGoodHome (fun _ => some 7)
      (fun _ _ => some 5) (("wgpuCreateInstance").data)
      initialOnceState).1 = some 5 := by
  decide

/-- C9 (amended): every open attempt through `mbt_wgpu_native_open_impl`
that misses the cache performs path resolution afresh, performs the load
whenever a usable path resolves, and a failed attempt leaves the cache
empty so the next attempt resolves and loads again; the optional-symbol
module is the exception: its once-primitive runs resolution and load at
most once per process, so once `done` is set a call never resolves again
and reuses the cached (possibly failed) outcome. -/
theorem c9_path_reresolution_amended :
    (∀ (os : OSKind) (c : OpenCallCtx),
      (mbt_wgpu_native_open_impl os c none).didResolve = true) ∧
    (∀ (os : OSKind) (c : OpenCallCtx),
      ((mbt_wgpu_native_open_impl os c none).result = .noHandle ∨
        (mbt_wgpu_native_open_impl os c none).result = .aborted) →
      (mbt_wgpu_native_open_impl os c none).cache = none) ∧
    (∀ (os : OSKind) (c : OpenCallCtx) (path : CStr),
      mbt_wgpu_native_resolve_lib_path os c.env 1024 = some path →
      path.isEmpty = false →
      (mbt_wgpu_native_open_impl os c none).loadCalls = 1) ∧
    (∀ (os : OSKind) (env : Env) (load : CStr → Option Nat)
        (sym : Nat → CStr → Option Nat) (name : CStr) (st : OnceState),
      st.done = true →
      (mbt_wgpu_optional_sym os env load sym name st).2.2 = false ∧
      (mbt_wgpu_optional_sym os env load sym name st).2.1 = st) := by
  refine ⟨?_, ?_, ?_, ?_⟩
  · intro os c
    unfold mbt_wgpu_native_open_impl
    cases hres : mbt_wgpu_native_resolve_lib_path os c.env 1024 with
    | none => rfl
    | some path =>
      by_cases hemp : path.isEmpty
      · simp [hemp]
      · cases hload : c.load path with
        | none => simp [hemp, hload]
        | some lib => simp [hemp, hload]
  · intro os c
    cases hres : mbt_wgpu_native_resolve_lib_path os c.env 1024 with
    | none =>
      intro _
      simp [mbt_wgpu_native_open_impl, hres]
    | some path =>
      intro hfail
      by_cases hemp : path.isEmpty
      · simp [mbt_wgpu_native_open_impl, hres, hemp]
      · cases hload : c.load path with
        | none => simp [mbt_wgpu_native_open_impl, hres, hemp, hload]
        | some lib =>
          exfalso
          simp [mbt_wgpu_native_open_impl, hres, hemp, hload] at hfail
  · intro os c path hres hemp
    unfold mbt_wgpu_native_open_impl
    rw [hres]
    cases hload : c.load path with
    | none => simp [hemp, hload]
    | some lib => simp [hemp, hload]
  · intro os env load sym name st hdone
    unfold mbt_wgpu_optional_sym
    by_cases hname : name.isEmpty
    · simp [hname]
    · simp only [hname, Bool.false_eq_true, if_false, hdone, if_pos, Bool.not_true]
      cases hlib : st.lib with
      | none => simp [hdone, hlib]
      | some l => simp [hdone, hlib]

/-- C9 witness: a cache-missing open against a good environment resolves
and loads exactly once. -/
theorem c9_path_reresolution_amended_witness :
    mbt_wgpu_native_resolve_lib_path .linux envGoodHome 1024 =
      some (snprintfTrunc 1024 ((("/home/u").data) ++ libSubdir .linux ++
        mbt_wgpu_native_lib_filename .linux)) ∧
    (mbt_wgpu_native_open_impl .linux ⟨false, envGoodHome, fun _ => some 9⟩
      none).loadCalls = 1 :=
  ⟨by decide,
    c9_path_reresolution_amended.2.2.1 .linux
      ⟨false, envGoodHome, fun _ => some 9⟩
      (snprintfTrunc 1024 ((("/home/u").data) ++ libSubdir .linux ++
        mbt_wgpu_native_lib_filename .linux)) (by decide) (by decide)⟩

theorem appendf_ne_nil (buflen : Nat) (acc s : CStr) (h : acc ≠ []) :
    mbt_wgpu_appendf buflen acc s ≠ [] := by
  unfold mbt_wgpu_appendf
  split
  · exact h
  · simp [h]

theorem appendf_from_nil_ne_nil (s : CStr) (h : s ≠ []) :
    mbt_wgpu_appendf 4096 [] s ≠ [] := by
  unfold mbt_wgpu_appendf
  simp [List.take_eq_nil_iff, h]

theorem mbt_wgpu_native_diagnostic_impl_ne_nil (os : OSKind) (env : Env)
    (loadOk : Bool) (dlerrText symErrText : Option CStr) (symOk : Bool) :
    mbt_wgpu_native_diagnostic_impl os env loadOk dlerrText symErrText symOk ≠ [] := by
  unfold mbt_wgpu_native_diagnostic_impl
  dsimp only
  cases hres : mbt_wgpu_native_resolve_lib_path os env 1024 with
  | none =>
    exact appendf_ne_nil _ _ _ (appendf_ne_nil _ _ _
      (appendf_from_nil_ne_nil _ (by simp)))
  | some p =>
    dsimp only
    by_cases hemp : p.isEmpty
    · rw [if_pos hemp]
      exact appendf_ne_nil _ _ _ (appendf_ne_nil _ _ _
        (appendf_from_nil_ne_nil _ (by simp)))
    · rw [if_neg hemp]
      by_cases hload : loadOk = false
      · rw [if_pos hload]
        cases dlerrText with
        | none =>
          exact appendf_ne_nil _ _ _ (appendf_ne_nil _ _ _
            (appendf_from_nil_ne_nil _ (by simp)))
        | some e =>
          dsimp only
          by_cases he : e.isEmpty
          · rw [if_pos he]
            exact appendf_ne_nil _ _ _ (appendf_ne_nil _ _ _
              (appendf_from_nil_ne_nil _ (by simp)))
          · rw [if_neg he]
            exact appendf_ne_nil _ _ _ (appendf_ne_nil _ _ _ (appendf_ne_nil _ _ _
              (appendf_from_nil_ne_nil _ (by simp))))
      · rw [if_neg hload]
        by_cases hsym : symOk = true
        · rw [if_pos hsym]
          exact appendf_ne_nil _ _ _ (appendf_ne_nil _ _ _ (appendf_ne_nil _ _ _
            (appendf_from_nil_ne_nil _ (by simp))))
        · rw [if_neg hsym]
          cases symErrText with
          | none =>
            exact appendf_ne_nil _ _ _ (appendf_ne_nil _ _ _ (appendf_ne_nil _ _ _
              (appendf_from_nil_ne_nil _ (by simp))))
          | some e =>
            dsimp only
            by_cases he : e.isEmpty
            · rw [if_pos he]
              exact appendf_ne_nil _ _ _ (appendf_ne_nil _ _ _ (appendf_ne_nil _ _ _
                (appendf_from_nil_ne_nil _ (by simp))))
            · rw [if_neg he]
              exact appendf_ne_nil _ _ _ (appendf_ne_nil _ _ _ (appendf_ne_nil _ _ _
                (appendf_ne_nil _ _ _ (appendf_from_nil_ne_nil _ (by simp)))))

/-- C6 counterexample: the stored request-adapter message can be empty (its
length is 0 at process start and after successful requests); querying its
length (0) and fetching with a buffer of exactly that length returns false,
not success, because the helper rejects `out_len == 0`. -/
theorem c6_counterexample :
    mbt_wgpu_instance_request_adapter_sync_last_message_utf8 []
      (mbt_wgpu_instance_request_adapter_sync_last_message_utf8_len []) =
      (false, []) := by decide

/-- C6 (amended): no message-copy helper ever writes more bytes than the
caller-supplied buffer length; fetching into a buffer smaller than the
stored length fails cleanly without writing; and a length-query followed by
an exact-length fetch succeeds — for the last-message helpers whenever the
stored length is nonzero (an empty stored message makes them return false,
since they reject `out_len == 0`), unconditionally for the diagnostic
report (whose length is always nonzero), and unconditionally for stored
compilation-info messages. -/
theorem c6_truncation_safety_amended :
    (∀ (msg : List Nat) (out_len : Nat),
      (mbt_wgpu_instance_request_adapter_sync_last_message_utf8
        msg out_len).2.length ≤ out_len) ∧
    (∀ msg : List Nat, msg ≠ [] →
      mbt_wgpu_instance_request_adapter_sync_last_message_utf8 msg
        (mbt_wgpu_instance_request_adapter_sync_last_message_utf8_len msg) =
        (true, msg)) ∧
    (∀ (msg : List Nat) (out_len : Nat), out_len < msg.length →
      mbt_wgpu_instance_request_adapter_sync_last_message_utf8 msg out_len =
        (false, [])) ∧
    (∀ (msg : List Nat) (out_len : Nat),
      (mbt_wgpu_adapter_request_device_sync_last_message_utf8
        msg out_len).2.length ≤ out_len) ∧
    (∀ msg : List Nat, msg ≠ [] →
      mbt_wgpu_adapter_request_device_sync_last_message_utf8 msg
        (mbt_wgpu_adapter_request_device_sync_last_message_utf8_len msg) =
        (true, msg)) ∧
    (∀ (msg : List Nat) (out_len : Nat), out_len < msg.length →
      mbt_wgpu_adapter_request_device_sync_last_message_utf8 msg out_len =
        (false, [])) ∧
    (∀ (os : OSKind) (env : Env) (loadOk : Bool)
        (dlerrText symErrText : Option CStr) (symOk : Bool) (out_len : Nat),
      (mbt_wgpu_native_diagnostic_utf8 os env loadOk dlerrText symErrText
        symOk out_len).2.length ≤ out_len) ∧
    (∀ (os : OSKind) (env : Env) (loadOk : Bool)
        (dlerrText symErrText : Option CStr) (symOk : Bool),
      mbt_wgpu_native_diagnostic_utf8 os env loadOk dlerrText symErrText symOk
        (mbt_wgpu_native_diagnostic_utf8_len os env loadOk dlerrText
          symErrText symOk) =
        (true, mbt_wgpu_native_diagnostic_impl os env loadOk dlerrText
          symErrText symOk)) ∧
    (∀ (info : Option CompInfo) (index out_len : Nat),
      (mbt_wgpu_compilation_info_message_utf8 info index out_len).2.length ≤
        out_len) ∧
    (∀ (p : CompInfo) (index : Nat) (t : List Nat),
      p.messages[index]? = some t →
      mbt_wgpu_compilation_info_message_utf8 (some p) index
        (mbt_wgpu_compilation_info_message_utf8_len (some p) index) =
        (true, t)) ∧
    (∀ (p : CompInfo) (index : Nat) (t : List Nat) (out_len : Nat),
      p.messages[index]? = some t → out_len < t.length →
      mbt_wgpu_compilation_info_message_utf8 (some p) index out_len =
        (false, [])) := by
  refine ⟨?_, ?_, ?_, ?_, ?_, ?_, ?_, ?_, ?_, ?_, ?_⟩
  · intro msg out_len
    unfold mbt_wgpu_instance_request_adapter_sync_last_message_utf8
    by_cases h0 : out_len = 0
    · simp [h0]
    · by_cases hlt : out_len < msg.length
      · simp [h0, hlt]
      · by_cases hz : msg.length = 0
        · simp [h0, hlt, hz]
        · simp only [h0, hlt, hz, if_false, ite_false]
          omega
  · intro msg hne
    have hz : msg.length ≠ 0 := by simpa using hne
    unfold mbt_wgpu_instance_request_adapter_sync_last_message_utf8
      mbt_wgpu_instance_request_adapter_sync_last_message_utf8_len
    simp [hz]
  · intro msg out_len hlt
    unfold mbt_wgpu_instance_request_adapter_sync_last_message_utf8
    by_cases h0 : out_len = 0
    · simp [h0]
    · simp [h0, hlt]
  · intro msg out_len
    unfold mbt_wgpu_adapter_request_device_sync_last_message_utf8
    by_cases h0 : out_len = 0
    · simp [h0]
    · by_cases hlt : out_len < msg.length
      · simp [h0, hlt]
      · by_cases hz : msg.length = 0
        · simp [h0, hlt, hz]
        · simp only [h0, hlt, hz, if_false, ite_false]
          omega
  · intro msg hne
    have hz : msg.length ≠ 0 := by simpa using hne
    unfold mbt_wgpu_adapter_request_device_sync_last_message_utf8
      mbt_wgpu_adapter_request_device_sync_last_message_utf8_len
    simp [hz]
  · intro msg out_len hlt
    unfold mbt_wgpu_adapter_request_device_sync_last_message_utf8
    by_cases h0 : out_len = 0
    · simp [h0]
    · simp [h0, hlt]
  · intro os env loadOk dlerrText symErrText symOk out_len
    unfold mbt_wgpu_native_diagnostic_utf8
    by_cases h0 : out_len = 0
    · simp [h0]
    · dsimp only
      by_cases hlt : out_len <
          (mbt_wgpu_native_diagnostic_impl os env loadOk dlerrText
            symErrText symOk).length
      · simp [h0, hlt]
      · simp only [h0, hlt, if_false, ite_false]
        omega
  · intro os env loadOk dlerrText symErrText symOk
    have hne := mbt_wgpu_native_diagnostic_impl_ne_nil os env loadOk dlerrText
      symErrText symOk
    have hz : (mbt_wgpu_native_diagnostic_impl os env loadOk dlerrText
        symErrText symOk).length ≠ 0 := by simpa using hne
    unfold mbt_wgpu_native_diagnostic_utf8 mbt_wgpu_native_diagnostic_utf8_len
    simp [hz]
  · intro info index out_len
    unfold mbt_wgpu_compilation_info_message_utf8
    cases info with
    | none => simp
    | some p =>
      cases hm : p.messages[index]? with
      | none => simp [hm]
      | some t =>
        by_cases hlt : out_len < t.length
        · simp [hm, hlt]
        · simp only [hm, hlt, if_false, ite_false]
          omega
  · intro p index t hm
    unfold mbt_wgpu_compilation_info_message_utf8
      mbt_wgpu_compilation_info_message_utf8_len
    simp only [hm]
    simp
  · intro p index t out_len hm hlt
    unfold mbt_wgpu_compilation_info_message_utf8
    simp only [hm]
    simp [hlt]

/-- C6 witness: a three-byte stored message fetched with exactly its queried
length succeeds. -/
theorem c6_truncation_safety_amended_witness :
    ([1, 2, 3] : List Nat) ≠ [] ∧
    mbt_wgpu_instance_request_adapter_sync_last_message_utf8 [1, 2, 3]
      (mbt_wgpu_instance_request_adapter_sync_last_message_utf8_len [1, 2, 3]) =
      (true, [1, 2, 3]) :=
  ⟨by decide, c6_truncation_safety_amended.2.1 [1, 2, 3] (by decide)⟩
